import Mathlib

/-!
Shallow embedding of `src/app.py` (the "Company Agent" Streamlit front-end)
and proofs about its session-state transitions, request payload construction
and batch question-answering orchestration.

Python JSON values are modelled by the inductive type `Json`; Python `None`
is `Json.null`.  HTTP interactions are modelled by passing in the response
(or the raised transport exception) as an explicit `NetResult` value, since
the network itself is an external collaborator.  `asyncio.gather` is
modelled by an explicit completion schedule `σ : List Nat`: tasks complete
in the order listed by `σ` and the gathered results are re-assembled by
task index, which lets us prove results independent of completion order.
-/

/-- JSON values, as produced by `response.json()` / consumed by `json.dumps`.
`null` models Python `None`. -/
inductive Json where
  | null
  | bool (b : Bool)
  | num (q : Rat)
  | str (s : String)
  | arr (elems : List Json)
  | obj (fields : List (String × Json))

/-- Field lookup on a JSON object (`d[k]` when present). -/
def Json.get? (j : Json) (k : String) : Option Json :=
  match j with
  | .obj fields => fields.lookup k
  | _ => none

/-- Whether a JSON object carries the key `k` (serialization emits the key,
possibly with a `null` value). -/
def Json.hasKey (j : Json) (k : String) : Bool :=
  (j.get? k).isSome

/-- Python `d.get(k, default)` on a parsed JSON value: `none` models the
`AttributeError` raised when the receiver is not a dict; otherwise the value
under `k`, or `default` when the key is absent. -/
def pyGetD (j : Json) (k : String) (default : Json) : Option Json :=
  match j with
  | .obj fields => some ((fields.lookup k).getD default)
  | _ => none

/-- Whether a `Json` value is `null` (Python `None`). -/
def Json.isNull : Json → Bool
  | .null => true
  | _ => false

/-- An HTTP response: status code, parsed JSON body (`response.json()`) and
raw text (`response.text`). -/
structure HttpResp where
  status : Nat
  body : Json
  text : String

/-- Outcome of one network call: a completed HTTP response, or a raised
transport exception carrying its message. -/
inductive NetResult where
  | resp (r : HttpResp)
  | exn (msg : String)

/-- A single `/company_qa/` request as issued by the batch helpers. -/
structure QARequest where
  company_domain : String
  qa_dict : Json

/-- The network as an oracle: what each request's call produces. -/
def Net : Type := QARequest → NetResult

/-- A network on which every call completes with an HTTP response
(no transport exception is ever raised). -/
def pureNet (f : QARequest → HttpResp) : Net :=
  fun r => NetResult.resp (f r)

/-! ### asyncio.gather with an explicit completion schedule -/

/-- Tasks completing in the order given by the schedule `σ`: each schedule
entry names a task index, and contributes that task's value tagged with its
index (out-of-range entries contribute nothing). -/
def runSchedule (σ : List Nat) (tasks : List α) : List (Nat × α) :=
  σ.filterMap fun i => (tasks.get? i).map fun v => (i, v)

/-- Re-assembling gathered results in task order: for each task index, the
first completion recorded for it. -/
def reassemble (n : Nat) (completed : List (Nat × α)) : List α :=
  (List.range n).filterMap fun i =>
    ((completed.find? fun p => p.1 == i).map Prod.snd)

/-- `asyncio.gather` of a list of already-determined task values under
completion schedule `σ`: results are handed back in task order, not in
completion order. -/
def gather (σ : List Nat) (tasks : List α) : List α :=
  reassemble tasks.length (runSchedule σ tasks)

/-- A schedule covering tasks `0..n-1`: every task eventually completes. -/
abbrev Covers (σ : List Nat) (n : Nat) : Prop :=
  ∀ i, i < n → i ∈ σ

/-! ### Batch QA helpers (`fetch_company_qa_responses`, `fetch_qa_responses`) -/

/-- The error entry appended for a non-200 response:
`{"error": "Failed to fetch response"}`. -/
def errorEntry : Json :=
  Json.obj [("error", Json.str "Failed to fetch response")]

/-- Post-gather handling of one response: the parsed body on status 200,
the error entry otherwise. -/
def processResponse (r : HttpResp) : Json :=
  if r.status = 200 then r.body else errorEntry

/-- `await asyncio.gather(*tasks)` without `return_exceptions`: if any task
raised, the exception propagates out of the gather; otherwise all responses
are returned. -/
def gatherExcept : List NetResult → Except String (List HttpResp)
  | [] => Except.ok []
  | NetResult.resp r :: rest => (gatherExcept rest).map fun l => r :: l
  | NetResult.exn m :: _ => Except.error m

/-- `fetch_company_qa_responses`: posts every `qa_dict` in `qa_list` for one
`company_domain` concurrently, gathers all responses, then turns each into a
result entry in task order.  `σ` is the completion schedule of the gather. -/
def fetch_company_qa_responses (net : Net) (σ : List Nat)
    (company_domain : String) (qa_list : List Json) : Except String (List Json) :=
  let tasks := qa_list.map fun qa =>
    net { company_domain := company_domain, qa_dict := qa }
  (gatherExcept (gather σ tasks)).map fun rs => rs.map processResponse

/-- `fetch_qa_responses`: runs `fetch_company_qa_responses` for every domain
concurrently and gathers the per-domain result lists.  `σ` schedules the
outer gather, `σs i` the inner gather of domain number `i`. -/
def fetch_qa_responses (net : Net) (σ : List Nat) (σs : Nat → List Nat)
    (domains_list : List String) (qa_list : List Json) :
    Except String (List (List Json)) :=
  let qa_tasks := domains_list.enum.map fun p =>
    fetch_company_qa_responses net (σs p.1) p.2 qa_list
  (gather σ qa_tasks).mapM id

/-- Sample QA dictionaries used as concrete batch inputs. -/
def qDictA : Json := Json.obj [("query", Json.str "Q1")]

def qDictB : Json := Json.obj [("query", Json.str "Q2")]

/-- A network that answers every request with a 200 response whose body
records the request's domain and question. -/
def echoNet : QARequest → HttpResp := fun r =>
  { status := 200, body := Json.arr [Json.str r.company_domain, r.qa_dict], text := "" }

/-- A network on which the request for question `Q1` fails with a 500
response while every other request succeeds. -/
def mixedNet : QARequest → HttpResp := fun r =>
  match r.qa_dict with
  | Json.obj (("query", Json.str "Q1") :: _) =>
      { status := 500, body := Json.null, text := "server error" }
  | _ => { status := 200, body := Json.str "answer", text := "" }

/-- A network on which the call for question `Q1` raises a transport
exception while every other call completes successfully. -/
def transportFailNet : Net := fun r =>
  match r.qa_dict with
  | Json.obj (("query", Json.str "Q1") :: _) => NetResult.exn "Connection reset"
  | _ => NetResult.resp { status := 200, body := Json.str "answer", text := "" }

/-! ### Session state, `authenticate` and `fetch_companies` -/

/-- The session fields touched by authentication and the company directory:
`st.session_state.authenticated`, `.access_token` (`Json.null` models Python
`None`) and `.companies`. -/
structure SessionState where
  authenticated : Bool
  access_token : Json
  companies : Json

/-- Session-state initialization: unauthenticated, no token, empty company
list. -/
def initState : SessionState :=
  { authenticated := false, access_token := Json.null, companies := Json.arr [] }

/-- `fetch_companies`: no-op while unauthenticated; on a 200 dict response
replaces `companies` with `data.get("companies", [])`; on a non-200
response, a transport exception, or a 200 non-dict body (whose `.get`
raises and is caught) leaves the state untouched.  The boolean reports
whether a request was sent. -/
def fetch_companies (s : SessionState) (resp : NetResult) : SessionState × Bool :=
  if s.authenticated = false then (s, false)
  else
    match resp with
    | NetResult.exn _ => (s, true)
    | NetResult.resp r =>
      if r.status = 200 then
        match pyGetD r.body "companies" (Json.arr []) with
        | some cs => ({ s with companies := cs }, true)
        | none => (s, true)
      else (s, true)

/-- Result of one `authenticate()` call: the session state afterwards, the
function's boolean return value, and whether the company-list request was
actually issued. -/
structure AuthResult where
  state : SessionState
  returned : Bool
  fetchTriggered : Bool

/-- `authenticate`: on a 200 dict response stores
`token_dict.get("access")` (possibly `null`), sets `authenticated` and runs
`fetch_companies`; on any non-200 status, a transport exception, or a 200
non-dict body (whose `.get` raises and is caught) sets
`authenticated := false` without touching `access_token`. -/
def authenticate (s : SessionState) (authResp companiesResp : NetResult) :
    AuthResult :=
  match authResp with
  | NetResult.exn _ => ⟨{ s with authenticated := false }, false, false⟩
  | NetResult.resp r =>
    if r.status = 200 then
      match pyGetD r.body "access" Json.null with
      | some tok =>
        let s1 := { s with access_token := tok, authenticated := true }
        let fc := fetch_companies s1 companiesResp
        ⟨fc.1, true, fc.2⟩
      | none => ⟨{ s with authenticated := false }, false, false⟩
    else ⟨{ s with authenticated := false }, false, false⟩

/-- The token an authentication response yields on its success path: `some`
exactly when the response is a 200 whose body is a dict (then the stored
token is `body.get("access")`, possibly `null`). -/
def authSuccessTok (authResp : NetResult) : Option Json :=
  match authResp with
  | NetResult.resp r =>
      if r.status = 200 then pyGetD r.body "access" Json.null else none
  | NetResult.exn _ => none

/-- The company list a directory response installs on its success path:
`some` exactly when the response is a 200 whose body is a dict (then the
stored list is `data.get("companies", [])`). -/
def companiesSuccessVal (resp : NetResult) : Option Json :=
  match resp with
  | NetResult.resp r =>
      if r.status = 200 then pyGetD r.body "companies" (Json.arr []) else none
  | NetResult.exn _ => none

/-- A successful authentication response carrying token `"tok123"`. -/
def authOK : NetResult :=
  NetResult.resp
    { status := 200, body := Json.obj [("access", Json.str "tok123")], text := "" }

/-- A rejected authentication attempt (HTTP 401). -/
def authFail : NetResult :=
  NetResult.resp
    { status := 401, body := Json.obj [("detail", Json.str "bad credentials")],
      text := "bad credentials" }

/-- A 200 authentication response whose dict body carries no `access` key. -/
def authNoAccess : NetResult :=
  NetResult.resp { status := 200, body := Json.obj [], text := "" }

/-- A successful company-list response carrying one company. -/
def companiesOK : NetResult :=
  NetResult.resp
    { status := 200,
      body := Json.obj [("companies", Json.arr
        [Json.obj [("company_name", Json.str "Acme"),
                   ("company_domain", Json.str "acme.com")]])],
      text := "" }

/-- The session after one successful authentication (whose company fetch hit
a transport error, leaving `companies` at its initial value). -/
def sAfterSuccess : SessionState :=
  (authenticate initState authOK (NetResult.exn "net down")).state

/-! ### Reachable session states -/

/-- The operations that touch the session's authentication fields: an
`authenticate()` call (with its auth response and, on success, the
company-list response) and a `fetch_companies()` refresh (button, mode
switch, or tab entry). -/
inductive Event where
  | auth (authResp companiesResp : NetResult)
  | refresh (resp : NetResult)

/-- One UI-driven transition of the session state. -/
def step (s : SessionState) : Event → SessionState
  | Event.auth a c => (authenticate s a c).state
  | Event.refresh r => (fetch_companies s r).1

/-- The session state after a sequence of operations from initialization. -/
def runEvents (events : List Event) : SessionState :=
  events.foldl step initState

/-- Whether an authentication response, if it is a 200, carries a dict body
whose `access` value is non-null. -/
def goodAuthResp (n : NetResult) : Bool :=
  match n with
  | NetResult.resp r =>
    if r.status = 200 then
      match pyGetD r.body "access" Json.null with
      | some tok => !tok.isNull
      | none => false
    else true
  | NetResult.exn _ => true

/-- Whether an event's authentication response (if any) is well-formed in
the sense of `goodAuthResp`. -/
def goodEvent : Event → Bool
  | Event.auth a _ => goodAuthResp a
  | Event.refresh _ => true

/-! ### Crawl form submit handler -/

/-- Python `str.split(sep)` on the character list: splitting on every
occurrence of `sep`, keeping empty pieces (`"".split` gives `[""]`). -/
def splitCharList (sep : Char) : List Char → List (List Char)
  | [] => [[]]
  | c :: cs =>
    let rest := splitCharList sep cs
    if c = sep then [] :: rest
    else
      match rest with
      | r :: rs => (c :: r) :: rs
      | [] => [[c]]

/-- Python `s.split(sep)` for a one-character separator. -/
def pySplit (s : String) (sep : Char) : List String :=
  (splitCharList sep s.data).map String.mk

/-- Python `s.strip()`: removes leading and trailing whitespace. -/
def pyStrip (s : String) : String :=
  String.mk
    (((s.data.dropWhile Char.isWhitespace).reverse.dropWhile Char.isWhitespace).reverse)

/-- Python falsiness of a string: `not s` is true exactly when `s` is empty. -/
def strFalsy (s : String) : Bool :=
  s.data.isEmpty

/-- Python truthiness of an optional string (`None` and `""` are falsy). -/
def optTruthy : Option String → Bool
  | none => false
  | some s => !(strFalsy s)

/-- The handler's `domains_list`: one domain per line, stripped, with lines
that are empty after stripping dropped. -/
def domains_list_of (company_domains : String) : List String :=
  (pySplit company_domains '\n').filterMap fun d =>
    if strFalsy (pyStrip d) then none else some (pyStrip d)

/-- The payload fields prepared for every crawl request:
`company_domains` and the `lite_crawl` flag derived from the crawl type. -/
def crawl_base (company_domains crawl_type : String) : List (String × Json) :=
  [("company_domains", Json.arr ((domains_list_of company_domains).map Json.str)),
   ("lite_crawl", Json.bool (crawl_type == "Lite Crawl"))]

/-- The payload fields after the conditional `payload["prompt"] = ...`
extension for custom-prompt crawls. -/
def crawl_fields (company_domains crawl_type : String)
    (custom_prompt : Option String) : List (String × Json) :=
  if crawl_type == "Custom Prompt" then
    match custom_prompt with
    | some p =>
      if strFalsy p then crawl_base company_domains crawl_type
      else crawl_base company_domains crawl_type ++ [("prompt", Json.str p)]
    | none => crawl_base company_domains crawl_type
  else crawl_base company_domains crawl_type

/-- The crawl form submit handler, up to the point of issuing the request:
returns the JSON payload passed to `requests.post`, or `none` when the
handler rejects locally and no request is sent. -/
def crawl_submit (authenticated : Bool) (company_domains : String)
    (crawl_type : String) (custom_prompt : Option String) : Option Json :=
  if authenticated = false then none
  else if strFalsy company_domains then none
  else if crawl_type == "Custom Prompt" && !(optTruthy custom_prompt) then none
  else if (domains_list_of company_domains).isEmpty then none
  else some (Json.obj (crawl_fields company_domains crawl_type custom_prompt))

/-! ### QA request payload -/

/-- The `qa_dict` built for each chat question: the query, the LLM
sub-object, the vector-store sub-object (where `rerank_top_n` is the
configured value when the reranker is on and `None` otherwise), and the
recursion limit. -/
def qa_dict (prompt selected_model : String) (temperature : Rat) (k_value : Nat)
    (use_reranker : Bool) (rerank_top_n recursion_limit : Nat) : Json :=
  Json.obj
    [("query", Json.str prompt),
     ("llm_kwargs", Json.obj
        [("model_name", Json.str selected_model),
         ("temperature", Json.num temperature)]),
     ("vectorstore_kwargs", Json.obj
        [("k", Json.num k_value),
         ("use_reranker", Json.bool use_reranker),
         ("rerank_top_n",
           if use_reranker then Json.num rerank_top_n else Json.null)]),
     ("recursion_limit", Json.num recursion_limit)]

/-! ### Chat prompt handler -/

/-- One entry of `st.session_state.messages`: role, content, and the
assistant entries' optional structured `json_output`. -/
structure ChatMessage where
  role : String
  content : Json
  json_output : Option Json

/-- The chat prompt handler's effect on the history: appends the user
message, then issues the QA request and appends one assistant message —
the answer on a 200 dict body, an error message on a non-200 status, a
transport exception, or a 200 body whose `.get` raises. -/
def handle_prompt (messages : List ChatMessage) (prompt selected_domain : String)
    (netResp : NetResult) (now : String) : List ChatMessage :=
  let msgs1 := messages ++
    [{ role := "user", content := Json.str prompt, json_output := none }]
  match netResp with
  | NetResult.exn m =>
    msgs1 ++ [{ role := "assistant",
                content := Json.str ("⚠️ Error getting answer: " ++ m),
                json_output := none }]
  | NetResult.resp r =>
    if r.status = 200 then
      match pyGetD r.body "output" (Json.str "No answer available") with
      | some answer =>
        msgs1 ++ [{ role := "assistant", content := answer,
                    json_output := some (Json.obj
                      [("query", Json.str prompt), ("response", answer),
                       ("company_domain", Json.str selected_domain),
                       ("timestamp", Json.str now),
                       ("full_response", r.body)]) }]
      | none =>
        msgs1 ++ [{ role := "assistant",
                    content := Json.str
                      ("⚠️ Error getting answer: " ++ "AttributeError"),
                    json_output := none }]
    else
      msgs1 ++ [{ role := "assistant",
                  content := Json.str
                    ("⚠️ Error: " ++ toString r.status ++ " - " ++ r.text),
                  json_output := none }]

theorem runSchedule_mem {σ : List Nat} {tasks : List α} {p : Nat × α}
    (hp : p ∈ runSchedule σ tasks) : tasks.get? p.1 = some p.2 := by
  rcases List.mem_filterMap.mp hp with ⟨i, _, hi⟩
  cases h : tasks.get? i with
  | none => rw [h] at hi; simp at hi
  | some v =>
    rw [h] at hi
    simp only [Option.map_some'] at hi
    cases hi
    exact h

theorem find?_runSchedule_of_get?_none {σ : List Nat} {tasks : List α} {i : Nat}
    (h : tasks.get? i = none) :
    (runSchedule σ tasks).find? (fun p => p.1 == i) = none := by
  apply List.find?_eq_none.mpr
  intro p hp hpi
  have := runSchedule_mem hp
  have hi : p.1 = i := by simpa using hpi
  rw [hi] at this
  rw [h] at this
  cases this

theorem find?_runSchedule {σ : List Nat} {tasks : List α} {i : Nat}
    (hi : i ∈ σ) :
    (runSchedule σ tasks).find? (fun p => p.1 == i) =
      (tasks.get? i).map fun v => (i, v) := by
  induction σ with
  | nil => cases hi
  | cons j σ' ih =>
    by_cases hji : j = i
    · subst hji
      cases hj : tasks.get? j with
      | none =>
        rw [Option.map_none']
        exact find?_runSchedule_of_get?_none hj
      | some v =>
        simp only [runSchedule, List.filterMap_cons, hj, Option.map_some']
        rw [List.find?_cons_of_pos _ (by simp)]
    · have hi' : i ∈ σ' := by
        cases List.mem_cons.mp hi with
        | inl h => exact absurd h.symm hji
        | inr h => exact h
      cases hj : tasks.get? j with
      | none =>
        simpa only [runSchedule, List.filterMap_cons, hj] using ih hi'
      | some v =>
        simp only [runSchedule, List.filterMap_cons, hj, Option.map_some']
        rw [List.find?_cons_of_neg]
        · exact ih hi'
        · simp [hji]

theorem range_filterMap_get? (l : List α) :
    (List.range l.length).filterMap (fun i => l.get? i) = l := by
  induction l with
  | nil => simp
  | cons a l ih =>
    have : List.range (a :: l).length = 0 :: (List.range l.length).map Nat.succ := by
      simp [List.range_succ_eq_map]
    rw [this]
    simp only [List.filterMap_cons, List.get?]
    rw [List.filterMap_map]
    have : (fun i => (a :: l).get? i) ∘ Nat.succ = fun i => l.get? i := by
      funext i
      simp [List.get?]
    rw [this, ih]

/-- Gathering is completion-order independent: under any schedule on which
every task completes, `gather` returns exactly the task values in task
order. -/
theorem gather_eq_of_covers {σ : List Nat} {tasks : List α}
    (h : Covers σ tasks.length) : gather σ tasks = tasks := by
  unfold gather reassemble
  have hcong :
      (List.range tasks.length).filterMap
        (fun i => ((runSchedule σ tasks).find? (fun p => p.1 == i)).map Prod.snd) =
      (List.range tasks.length).filterMap (fun i => tasks.get? i) := by
    apply List.filterMap_congr
    intro i hi
    rw [find?_runSchedule (h i (List.mem_range.mp hi))]
    cases tasks.get? i <;> rfl
  rw [hcong, range_filterMap_get?]

theorem gatherExcept_map_resp (l : List α) (g : α → HttpResp) :
    gatherExcept (l.map fun x => NetResult.resp (g x)) = Except.ok (l.map g) := by
  induction l with
  | nil => rfl
  | cons a l ih => simp [gatherExcept, ih, Except.map]

theorem mapM_id_map_ok (l : List α) (g : α → β) :
    (l.map fun x => (Except.ok (g x) : Except ε β)).mapM id = Except.ok (l.map g) := by
  induction l with
  | nil => rfl
  | cons a l ih =>
    simp only [List.map_cons, List.mapM_cons, ih]
    rfl

/-- When every call completes, one domain's whole batch yields exactly one
entry per question, in question order, each entry determined by that
question's own response. -/
theorem fetch_company_qa_ok (f : QARequest → HttpResp) (σ : List Nat)
    (d : String) (qa_list : List Json) (hσ : Covers σ qa_list.length) :
    fetch_company_qa_responses (pureNet f) σ d qa_list =
      Except.ok (qa_list.map fun qa =>
        processResponse (f { company_domain := d, qa_dict := qa })) := by
  show (gatherExcept (gather σ (qa_list.map fun qa =>
      NetResult.resp (f { company_domain := d, qa_dict := qa })))).map
        (fun rs => rs.map processResponse) =
    Except.ok (qa_list.map fun qa =>
      processResponse (f { company_domain := d, qa_dict := qa }))
  rw [gather_eq_of_covers (by simpa using hσ), gatherExcept_map_resp]
  simp [Except.map]

/-- C1: for every sequence of domains and every sequence of questions, when
each network call completes, `fetch_qa_responses` returns one inner sequence
per domain in input domain order, each with one entry per question in input
question order, for every completion order of the outer and inner gathers. -/
theorem fetch_qa_responses_matrix (f : QARequest → HttpResp) (σ : List Nat)
    (σs : Nat → List Nat) (domains_list : List String) (qa_list : List Json)
    (hσ : Covers σ domains_list.length)
    (hσs : ∀ i, Covers (σs i) qa_list.length) :
    fetch_qa_responses (pureNet f) σ σs domains_list qa_list =
      Except.ok (domains_list.map fun d => qa_list.map fun qa =>
        processResponse (f { company_domain := d, qa_dict := qa })) := by
  show (gather σ (domains_list.enum.map fun p =>
      fetch_company_qa_responses (pureNet f) (σs p.1) p.2 qa_list)).mapM id = _
  have h1 : (domains_list.enum.map fun p =>
      fetch_company_qa_responses (pureNet f) (σs p.1) p.2 qa_list) =
      domains_list.enum.map fun p =>
        Except.ok (qa_list.map fun qa =>
          processResponse (f { company_domain := p.2, qa_dict := qa })) :=
    List.map_congr_left fun p _ =>
      fetch_company_qa_ok f (σs p.1) p.2 qa_list (hσs p.1)
  have h2 : (domains_list.enum.map fun p =>
      (Except.ok (qa_list.map fun qa =>
        processResponse (f { company_domain := p.2, qa_dict := qa })) :
          Except String (List Json))) =
      domains_list.map fun d =>
        Except.ok (qa_list.map fun qa =>
          processResponse (f { company_domain := d, qa_dict := qa })) := by
    have hcomp : (fun p : Nat × String =>
        (Except.ok (qa_list.map fun qa =>
          processResponse (f { company_domain := p.2, qa_dict := qa })) :
            Except String (List Json))) =
        (fun d : String =>
          (Except.ok (qa_list.map fun qa =>
            processResponse (f { company_domain := d, qa_dict := qa })) :
              Except String (List Json))) ∘ Prod.snd := rfl
    rw [hcomp, ← List.map_map, List.enum_map_snd]
  rw [h1, h2, gather_eq_of_covers (by simpa using hσ)]
  exact mapM_id_map_ok _ _

/-- Witness: two domains and two questions under reversed completion order
still yield the 2×2 result matrix in input order. -/
theorem fetch_qa_responses_matrix_witness :
    Covers [1, 0] 2 ∧
    fetch_qa_responses (pureNet echoNet) [1, 0] (fun _ => [1, 0])
        ["a.com", "b.com"] [qDictA, qDictB] =
      Except.ok
        [[Json.arr [Json.str "a.com", qDictA], Json.arr [Json.str "a.com", qDictB]],
         [Json.arr [Json.str "b.com", qDictA], Json.arr [Json.str "b.com", qDictB]]] :=
  ⟨by decide,
   fetch_qa_responses_matrix echoNet [1, 0] (fun _ => [1, 0])
     ["a.com", "b.com"] [qDictA, qDictB] (by decide)
     (fun _ => (by decide : Covers [1, 0] 2))⟩

/-- C2 counterexample: a transport failure on the first question's call
makes the whole gather abort with the exception instead of producing an
error entry at that position — the batch returns no result rows at all. -/
theorem qa_transport_failure_aborts_gather :
    fetch_company_qa_responses transportFailNet [0, 1] "a.com" [qDictA, qDictB] =
      Except.error "Connection reset" := rfl

/-- C2 (amended): when every request completes with an HTTP response, a
non-200 response becomes the typed error entry at exactly that request's
position in the per-domain result list, and every sibling entry is the body
of its own response, unaffected. -/
theorem qa_failure_entry_per_position (f : QARequest → HttpResp) (σ : List Nat)
    (d : String) (qa_list : List Json) (hσ : Covers σ qa_list.length) :
    fetch_company_qa_responses (pureNet f) σ d qa_list =
      Except.ok (qa_list.map fun qa =>
        if (f { company_domain := d, qa_dict := qa }).status = 200
        then (f { company_domain := d, qa_dict := qa }).body
        else errorEntry) :=
  fetch_company_qa_ok f σ d qa_list hσ

/-- Witness: with question `Q1` failing (500) and `Q2` succeeding, the batch
yields the error entry at position 0 and the answer at position 1. -/
theorem qa_failure_entry_per_position_witness :
    Covers [1, 0] 2 ∧
    fetch_company_qa_responses (pureNet mixedNet) [1, 0] "a.com" [qDictA, qDictB] =
      Except.ok [errorEntry, Json.str "answer"] :=
  ⟨by decide,
   qa_failure_entry_per_position mixedNet [1, 0] "a.com" [qDictA, qDictB] (by decide)⟩

theorem fetch_companies_snd (s : SessionState) (resp : NetResult)
    (h : s.authenticated = true) : (fetch_companies s resp).2 = true := by
  unfold fetch_companies
  rw [h]
  cases resp with
  | exn m => rfl
  | resp r =>
    simp only [Bool.true_eq_false, if_false]
    by_cases hr : r.status = 200
    · simp only [hr, if_true]
      cases pyGetD r.body "companies" (Json.arr []) <;> rfl
    · simp [hr]

theorem fetch_companies_preserves (s : SessionState) (resp : NetResult) :
    (fetch_companies s resp).1.authenticated = s.authenticated ∧
    (fetch_companies s resp).1.access_token = s.access_token := by
  unfold fetch_companies
  split
  · exact ⟨rfl, rfl⟩
  · cases resp with
    | exn m => exact ⟨rfl, rfl⟩
    | resp r =>
      dsimp only
      by_cases hr : r.status = 200
      · rw [if_pos hr]
        cases pyGetD r.body "companies" (Json.arr []) <;> exact ⟨rfl, rfl⟩
      · rw [if_neg hr]
        exact ⟨rfl, rfl⟩

/-- C3 counterexample: a 401 after a successful authentication sets
`authenticated := false` but leaves the stale token in place rather than
clearing it; and a 200 whose body lacks `access` yields
`authenticated = true` with a null token rather than a non-empty one. -/
theorem authenticate_claim_counterexample :
    (authenticate sAfterSuccess authFail (NetResult.exn "net down")).state.authenticated
        = false ∧
    (authenticate sAfterSuccess authFail (NetResult.exn "net down")).state.access_token
        = Json.str "tok123" ∧
    (authenticate initState authNoAccess (NetResult.exn "net down")).state.authenticated
        = true ∧
    (authenticate initState authNoAccess (NetResult.exn "net down")).state.access_token
        = Json.null :=
  ⟨rfl, rfl, rfl, rfl⟩

/-- C3 (amended): on a 200 dict response `authenticate` sets
`authenticated := true`, stores the body's `access` value (possibly null)
as the token, returns true and issues the company-list fetch; on any
non-200 status, transport failure, or non-dict 200 body it sets
`authenticated := false` and leaves the previously held token unchanged. -/
theorem authenticate_outcomes (s : SessionState) (authResp companiesResp : NetResult) :
    (∀ tok, authSuccessTok authResp = some tok →
      (authenticate s authResp companiesResp).state.authenticated = true ∧
      (authenticate s authResp companiesResp).state.access_token = tok ∧
      (authenticate s authResp companiesResp).returned = true ∧
      (authenticate s authResp companiesResp).fetchTriggered = true) ∧
    (authSuccessTok authResp = none →
      (authenticate s authResp companiesResp).state.authenticated = false ∧
      (authenticate s authResp companiesResp).state.access_token = s.access_token ∧
      (authenticate s authResp companiesResp).returned = false ∧
      (authenticate s authResp companiesResp).fetchTriggered = false) := by
  cases authResp with
  | exn m =>
    refine ⟨fun tok htok => ?_, fun _ => ⟨rfl, rfl, rfl, rfl⟩⟩
    cases htok
  | resp r =>
    by_cases hr : r.status = 200
    · cases htok : pyGetD r.body "access" Json.null with
      | none =>
        refine ⟨fun tok h => ?_, fun _ => ?_⟩
        · rw [authSuccessTok, if_pos hr, htok] at h
          cases h
        · unfold authenticate
          dsimp only
          rw [if_pos hr, htok]
          exact ⟨rfl, rfl, rfl, rfl⟩
      | some tok0 =>
        refine ⟨fun tok h => ?_, fun h => ?_⟩
        · rw [authSuccessTok, if_pos hr, htok] at h
          cases h
          have hstep : authenticate s (NetResult.resp r) companiesResp =
              ⟨(fetch_companies
                  { s with access_token := tok0, authenticated := true } companiesResp).1,
               true,
               (fetch_companies
                  { s with access_token := tok0, authenticated := true } companiesResp).2⟩ := by
            unfold authenticate
            dsimp only
            rw [if_pos hr, htok]
          rw [hstep]
          have hp := fetch_companies_preserves
            { s with access_token := tok0, authenticated := true } companiesResp
          have hs := fetch_companies_snd
            { s with access_token := tok0, authenticated := true } companiesResp rfl
          exact ⟨hp.1, hp.2, rfl, hs⟩
        · rw [authSuccessTok, if_pos hr, htok] at h
          cases h
    · refine ⟨fun tok h => ?_, fun _ => ?_⟩
      · rw [authSuccessTok, if_neg hr] at h
        cases h
      · unfold authenticate
        dsimp only
        rw [if_neg hr]
        exact ⟨rfl, rfl, rfl, rfl⟩

/-- Witness: a successful authentication from the initial state stores the
token, returns true and triggers the company fetch. -/
theorem authenticate_outcomes_witness :
    authSuccessTok authOK = some (Json.str "tok123") ∧
    (authenticate initState authOK companiesOK).state.authenticated = true ∧
    (authenticate initState authOK companiesOK).state.access_token = Json.str "tok123" ∧
    (authenticate initState authOK companiesOK).returned = true ∧
    (authenticate initState authOK companiesOK).fetchTriggered = true := by
  have h := (authenticate_outcomes initState authOK companiesOK).1 (Json.str "tok123") rfl
  exact ⟨rfl, h.1, h.2.1, h.2.2.1, h.2.2.2⟩

/-- C4 counterexample: the claimed biconditional fails in reachable states
in both directions — a failed authentication after a successful one leaves
a non-null stale token with `authenticated = false`, and a 200 body without
an `access` key gives `authenticated = true` with a null token. -/
theorem token_iff_authenticated_counterexample :
    (runEvents [Event.auth authOK companiesOK,
                Event.auth authFail companiesOK]).authenticated = false ∧
    (runEvents [Event.auth authOK companiesOK,
                Event.auth authFail companiesOK]).access_token = Json.str "tok123" ∧
    (runEvents [Event.auth authNoAccess companiesOK]).authenticated = true ∧
    (runEvents [Event.auth authNoAccess companiesOK]).access_token = Json.null :=
  ⟨rfl, rfl, rfl, rfl⟩

theorem step_preserves_token_inv (s : SessionState) (e : Event)
    (hg : goodEvent e = true)
    (hs : s.authenticated = true → s.access_token.isNull = false) :
    (step s e).authenticated = true → (step s e).access_token.isNull = false := by
  cases e with
  | refresh r =>
    intro h
    have hp := fetch_companies_preserves s r
    rw [step] at h ⊢
    rw [hp.2]
    exact hs (hp.1 ▸ h)
  | auth a c =>
    cases a with
    | exn m => intro h; cases h
    | resp r =>
      by_cases hr : r.status = 200
      · cases htok : pyGetD r.body "access" Json.null with
        | none =>
          intro h
          rw [step] at h
          have : (authenticate s (NetResult.resp r) c).state.authenticated = false := by
            unfold authenticate
            dsimp only
            rw [if_pos hr, htok]
          rw [this] at h
          cases h
        | some tok =>
          intro _
          have hstep : step s (Event.auth (NetResult.resp r) c) =
              (fetch_companies
                { s with access_token := tok, authenticated := true } c).1 := by
            rw [step]
            unfold authenticate
            dsimp only
            rw [if_pos hr, htok]
          rw [hstep,
            (fetch_companies_preserves
              { s with access_token := tok, authenticated := true } c).2]
          have hgood : (!tok.isNull) = true := by
            rw [goodEvent, goodAuthResp, if_pos hr, htok] at hg
            exact hg
          simpa using hgood
      · intro h
        rw [step] at h
        have : (authenticate s (NetResult.resp r) c).state.authenticated = false := by
          unfold authenticate
          dsimp only
          rw [if_neg hr]
        rw [this] at h
        cases h

theorem foldl_preserves_token_inv (events : List Event) (s : SessionState)
    (hgood : ∀ e ∈ events, goodEvent e = true)
    (hs : s.authenticated = true → s.access_token.isNull = false) :
    (events.foldl step s).authenticated = true →
      (events.foldl step s).access_token.isNull = false := by
  induction events generalizing s with
  | nil => exact hs
  | cons e es ih =>
    simp only [List.foldl_cons]
    exact ih (step s e) (fun x hx => hgood x (List.mem_cons_of_mem e hx))
      (step_preserves_token_inv s e (hgood e (List.mem_cons_self e es)) hs)

/-- C4 (amended): in every session state reachable through initialization,
authentication attempts and company refreshes, provided every 200
authentication response carries a dict body with a non-null `access` value,
`authenticated = true` implies the stored token is non-null.  The converse
direction of the claimed biconditional does not hold on the code. -/
theorem token_present_when_authenticated (events : List Event)
    (hgood : ∀ e ∈ events, goodEvent e = true)
    (hauth : (runEvents events).authenticated = true) :
    (runEvents events).access_token.isNull = false :=
  foldl_preserves_token_inv events initState hgood (fun h => by cases h) hauth

/-- Witness: one successful authentication from the initial state leaves
an authenticated session holding a non-null token. -/
theorem token_present_when_authenticated_witness :
    (∀ e ∈ [Event.auth authOK companiesOK], goodEvent e = true) ∧
    (runEvents [Event.auth authOK companiesOK]).authenticated = true ∧
    (runEvents [Event.auth authOK companiesOK]).access_token.isNull = false :=
  ⟨by decide, rfl,
   token_present_when_authenticated [Event.auth authOK companiesOK] (by decide) rfl⟩

/-- C8: `fetch_companies` is a no-op (no request, state unchanged) when the
session is unauthenticated; when authenticated it always issues the
request, on a successful response it replaces the company list wholesale
(with a value independent of the previous list), and on any failing
response it leaves the previous list untouched. -/
theorem fetch_companies_contract (s : SessionState) (resp : NetResult) :
    (s.authenticated = false → fetch_companies s resp = (s, false)) ∧
    (s.authenticated = true →
      (fetch_companies s resp).2 = true ∧
      (∀ cs, companiesSuccessVal resp = some cs →
        (fetch_companies s resp).1.companies = cs ∧
        ∀ old : Json,
          (fetch_companies { s with companies := old } resp).1.companies = cs) ∧
      (companiesSuccessVal resp = none →
        (fetch_companies s resp).1.companies = s.companies)) := by
  constructor
  · intro h
    unfold fetch_companies
    rw [h]
    rfl
  · intro h
    refine ⟨fetch_companies_snd s resp h, ?_, ?_⟩
    · intro cs hcs
      cases resp with
      | exn m => cases hcs
      | resp r =>
        by_cases hr : r.status = 200
        · rw [companiesSuccessVal, if_pos hr] at hcs
          constructor
          · unfold fetch_companies
            rw [h]
            dsimp only
            rw [if_pos hr, hcs]
            rfl
          · intro old
            unfold fetch_companies
            rw [show ({ s with companies := old } : SessionState).authenticated
                  = s.authenticated from rfl, h]
            dsimp only
            rw [if_pos hr, hcs]
            rfl
        · rw [companiesSuccessVal, if_neg hr] at hcs
          cases hcs
    · intro hnone
      cases resp with
      | exn m =>
        unfold fetch_companies
        rw [h]
        rfl
      | resp r =>
        unfold fetch_companies
        rw [h]
        dsimp only
        by_cases hr : r.status = 200
        · rw [companiesSuccessVal, if_pos hr] at hnone
          rw [if_pos hr, hnone]
          rfl
        · rw [if_neg hr]
          rfl

/-- Witness: an authenticated session wholesale-replaces its (empty)
company list with the fetched one, and the request is issued. -/
theorem fetch_companies_contract_witness :
    sAfterSuccess.authenticated = true ∧
    (fetch_companies sAfterSuccess companiesOK).2 = true ∧
    (fetch_companies sAfterSuccess companiesOK).1.companies =
      Json.arr [Json.obj [("company_name", Json.str "Acme"),
                          ("company_domain", Json.str "acme.com")]] := by
  have h := (fetch_companies_contract sAfterSuccess companiesOK).2 rfl
  exact ⟨rfl, h.1, (h.2.1 _ rfl).1⟩

/-- C10: an HTTP 200 company-list response whose dict body lacks the
`companies` key replaces the session company list with the empty list. -/
theorem fetch_companies_missing_key_empty (s : SessionState) (r : HttpResp)
    (hauth : s.authenticated = true) (hstatus : r.status = 200)
    (fields : List (String × Json)) (hbody : r.body = Json.obj fields)
    (hkey : fields.lookup "companies" = none) :
    (fetch_companies s (NetResult.resp r)).1.companies = Json.arr [] := by
  have hget : pyGetD r.body "companies" (Json.arr []) = some (Json.arr []) := by
    rw [hbody]
    dsimp only [pyGetD]
    rw [hkey]
    rfl
  unfold fetch_companies
  rw [hauth]
  dsimp only
  rw [if_pos hstatus, hget]
  rfl

/-- Witness: a session holding one company, receiving a 200 body without a
`companies` key, ends with an empty company list. -/
theorem fetch_companies_missing_key_empty_witness :
    (fetch_companies sAfterSuccess companiesOK).1.companies =
      Json.arr [Json.obj [("company_name", Json.str "Acme"),
                          ("company_domain", Json.str "acme.com")]] ∧
    (fetch_companies (fetch_companies sAfterSuccess companiesOK).1
        (NetResult.resp { status := 200, body := Json.obj [("status", Json.str "ok")],
                          text := "" })).1.companies = Json.arr [] :=
  ⟨rfl,
   fetch_companies_missing_key_empty (fetch_companies sAfterSuccess companiesOK).1
     { status := 200, body := Json.obj [("status", Json.str "ok")], text := "" }
     rfl rfl [("status", Json.str "ok")] rfl rfl⟩

/-- C5: the crawl handler rejects locally — no request is issued — whenever
the domains text is empty, or the crawl type is "Custom Prompt" with an
empty or absent custom prompt. -/
theorem crawl_submit_rejects_locally (authenticated : Bool)
    (company_domains crawl_type : String) (custom_prompt : Option String)
    (h : company_domains = "" ∨
      (crawl_type = "Custom Prompt" ∧ optTruthy custom_prompt = false)) :
    crawl_submit authenticated company_domains crawl_type custom_prompt = none := by
  unfold crawl_submit
  by_cases ha : authenticated = false
  · rw [if_pos ha]
  · rw [if_neg ha]
    cases h with
    | inl h1 =>
      subst h1
      rfl
    | inr h2 =>
      obtain ⟨hct, hcp⟩ := h2
      subst hct
      by_cases hcd : strFalsy company_domains = true
      · rw [if_pos hcd]
      · rw [if_neg hcd]
        rw [if_pos (by simp [hcp])]

/-- Witness: a custom-prompt submission with an empty prompt sends
nothing. -/
theorem crawl_submit_rejects_locally_witness :
    ("x.com" = "" ∨ ("Custom Prompt" = "Custom Prompt" ∧ optTruthy (some "") = false)) ∧
    crawl_submit true "x.com" "Custom Prompt" (some "") = none :=
  ⟨Or.inr ⟨rfl, rfl⟩,
   crawl_submit_rejects_locally true "x.com" "Custom Prompt" (some "")
     (Or.inr ⟨rfl, rfl⟩)⟩

/-- C6 counterexample: the handler does not deduplicate — submitting the
same domain on two lines sends it twice in `company_domains`. -/
theorem crawl_domains_not_deduplicated :
    crawl_submit true "x.com\nx.com" "Lite Crawl" none =
      some (Json.obj
        [("company_domains", Json.arr [Json.str "x.com", Json.str "x.com"]),
         ("lite_crawl", Json.bool true)]) ∧
    ¬ (["x.com", "x.com"] : List String).Nodup :=
  ⟨rfl, by decide⟩

/-- C6 (amended): every payload actually sent carries a non-empty
`company_domains` list of stripped, non-empty (but not deduplicated) lines
of the input, a `lite_crawl` boolean reflecting the crawl type, and a
`prompt` key exactly when the crawl type is "Custom Prompt". -/
theorem crawl_payload_shape (authenticated : Bool)
    (company_domains crawl_type : String) (custom_prompt : Option String)
    (payload : Json)
    (h : crawl_submit authenticated company_domains crawl_type custom_prompt =
      some payload) :
    ∃ ds : List String,
      ds ≠ [] ∧
      (∀ d ∈ ds, strFalsy d = false ∧
        ∃ raw ∈ pySplit company_domains '\n', d = pyStrip raw) ∧
      payload.get? "company_domains" = some (Json.arr (ds.map Json.str)) ∧
      payload.get? "lite_crawl" = some (Json.bool (crawl_type == "Lite Crawl")) ∧
      (payload.hasKey "prompt" = true ↔ crawl_type = "Custom Prompt") := by
  unfold crawl_submit at h
  by_cases ha : authenticated = false
  · rw [if_pos ha] at h; cases h
  rw [if_neg ha] at h
  by_cases hcd : strFalsy company_domains = true
  · rw [if_pos hcd] at h; cases h
  rw [if_neg hcd] at h
  by_cases hguard : (crawl_type == "Custom Prompt" && !(optTruthy custom_prompt)) = true
  · rw [if_pos hguard] at h; cases h
  rw [if_neg hguard] at h
  by_cases hds : (domains_list_of company_domains).isEmpty = true
  · rw [if_pos hds] at h; cases h
  rw [if_neg hds] at h
  cases h
  refine ⟨domains_list_of company_domains, ?_, ?_, ?_⟩
  · intro hnil
    rw [hnil] at hds
    exact hds rfl
  · intro d hd
    rcases List.mem_filterMap.mp hd with ⟨raw, hraw, hval⟩
    by_cases hf : strFalsy (pyStrip raw) = true
    · rw [if_pos hf] at hval; cases hval
    · rw [if_neg hf] at hval
      cases hval
      exact ⟨by simpa using hf, raw, hraw, rfl⟩
  by_cases hct : (crawl_type == "Custom Prompt") = true
  · have hcteq : crawl_type = "Custom Prompt" := by simpa using hct
    have htruthy : optTruthy custom_prompt = true := by
      rw [hct] at hguard
      simpa using hguard
    cases custom_prompt with
    | none => rw [optTruthy] at htruthy; cases htruthy
    | some p =>
      have hp : strFalsy p = false := by
        rw [optTruthy] at htruthy
        simpa using htruthy
      have hfields : crawl_fields company_domains crawl_type (some p) =
          crawl_base company_domains crawl_type ++ [("prompt", Json.str p)] := by
        unfold crawl_fields
        rw [if_pos hct]
        dsimp only
        rw [hp]
        rfl
      rw [hfields]
      refine ⟨?_, ?_, ?_⟩
      · simp [crawl_base, Json.get?, List.lookup]
      · simp [crawl_base, Json.get?, List.lookup]
      · constructor
        · intro _; exact hcteq
        · intro _
          simp [Json.hasKey, crawl_base, Json.get?, List.lookup]
  · have hctne : crawl_type ≠ "Custom Prompt" := by simpa using hct
    have hfields : crawl_fields company_domains crawl_type custom_prompt =
        crawl_base company_domains crawl_type := by
      unfold crawl_fields
      rw [if_neg hct]
    rw [hfields]
    refine ⟨?_, ?_, ?_⟩
    · simp [crawl_base, Json.get?, List.lookup]
    · simp [crawl_base, Json.get?, List.lookup]
    · constructor
      · intro hk
        exfalso
        simp [Json.hasKey, crawl_base, Json.get?, List.lookup] at hk
      · intro hc
        exact absurd hc hctne

/-- Witness: the lite crawl of `x.com` and `y.com` sends exactly
`{company_domains: ["x.com","y.com"], lite_crawl: true}` with no `prompt`
key, and that payload satisfies the shape contract. -/
theorem crawl_payload_shape_witness :
    crawl_submit true "x.com\ny.com" "Lite Crawl" none =
      some (Json.obj
        [("company_domains", Json.arr [Json.str "x.com", Json.str "y.com"]),
         ("lite_crawl", Json.bool true)]) ∧
    ∃ ds : List String,
      ds ≠ [] ∧
      (∀ d ∈ ds, strFalsy d = false ∧
        ∃ raw ∈ pySplit "x.com\ny.com" '\n', d = pyStrip raw) ∧
      (Json.obj
        [("company_domains", Json.arr [Json.str "x.com", Json.str "y.com"]),
         ("lite_crawl", Json.bool true)]).get? "company_domains" =
        some (Json.arr (ds.map Json.str)) ∧
      (Json.obj
        [("company_domains", Json.arr [Json.str "x.com", Json.str "y.com"]),
         ("lite_crawl", Json.bool true)]).get? "lite_crawl" =
        some (Json.bool (("Lite Crawl" : String) == "Lite Crawl")) ∧
      ((Json.obj
        [("company_domains", Json.arr [Json.str "x.com", Json.str "y.com"]),
         ("lite_crawl", Json.bool true)]).hasKey "prompt" = true ↔
        ("Lite Crawl" : String) = "Custom Prompt") :=
  ⟨rfl, crawl_payload_shape true "x.com\ny.com" "Lite Crawl" none
    (Json.obj
      [("company_domains", Json.arr [Json.str "x.com", Json.str "y.com"]),
       ("lite_crawl", Json.bool true)]) rfl⟩

/-- C7 counterexample: with the reranker off, the serialized
`vectorstore_kwargs` still carries the `rerank_top_n` key — its value is
`null` — contradicting "present if and only if use_reranker=true". -/
theorem rerank_top_n_key_always_present :
    (((qa_dict "q" "gpt-4o" (1 / 10) 30 false 10 25).get?
        "vectorstore_kwargs").map fun v => v.hasKey "rerank_top_n") = some true ∧
    (((qa_dict "q" "gpt-4o" (1 / 10) 30 false 10 25).get?
        "vectorstore_kwargs").bind fun v => v.get? "rerank_top_n") =
      some Json.null :=
  ⟨rfl, rfl⟩

/-- C7 (amended): every QA payload nests the query, an LLM sub-object
{model_name, temperature}, a retrieval sub-object {k, use_reranker,
rerank_top_n} — where `rerank_top_n` is always present, holding the
configured value when `use_reranker` and `null` otherwise — and
recursion_limit. -/
theorem qa_dict_shape (prompt selected_model : String) (temperature : Rat)
    (k_value : Nat) (use_reranker : Bool) (rerank_top_n recursion_limit : Nat) :
    (qa_dict prompt selected_model temperature k_value use_reranker
        rerank_top_n recursion_limit).get? "query" = some (Json.str prompt) ∧
    (qa_dict prompt selected_model temperature k_value use_reranker
        rerank_top_n recursion_limit).get? "llm_kwargs" =
      some (Json.obj
        [("model_name", Json.str selected_model),
         ("temperature", Json.num temperature)]) ∧
    (((qa_dict prompt selected_model temperature k_value use_reranker
        rerank_top_n recursion_limit).get? "vectorstore_kwargs").bind
          fun v => v.get? "k") = some (Json.num k_value) ∧
    (((qa_dict prompt selected_model temperature k_value use_reranker
        rerank_top_n recursion_limit).get? "vectorstore_kwargs").bind
          fun v => v.get? "use_reranker") = some (Json.bool use_reranker) ∧
    (((qa_dict prompt selected_model temperature k_value use_reranker
        rerank_top_n recursion_limit).get? "vectorstore_kwargs").bind
          fun v => v.get? "rerank_top_n") =
      some (if use_reranker then Json.num rerank_top_n else Json.null) ∧
    (qa_dict prompt selected_model temperature k_value use_reranker
        rerank_top_n recursion_limit).get? "recursion_limit" =
      some (Json.num recursion_limit) :=
  ⟨rfl, rfl, rfl, rfl, rfl, rfl⟩

/-- C9: every submitted prompt appends exactly two entries to the history,
in order — first the user entry carrying the prompt, then an
assistant-role entry — whatever the QA call's outcome, and the existing
entries are preserved unchanged in front of them. -/
theorem prompt_appends_exactly_two (messages : List ChatMessage)
    (prompt selected_domain : String) (netResp : NetResult) (now : String) :
    ∃ amsg : ChatMessage,
      handle_prompt messages prompt selected_domain netResp now =
        messages ++
          [{ role := "user", content := Json.str prompt, json_output := none },
           amsg] ∧
      amsg.role = "assistant" := by
  cases netResp with
  | exn m =>
    refine ⟨{ role := "assistant",
              content := Json.str ("⚠️ Error getting answer: " ++ m),
              json_output := none }, ?_, rfl⟩
    simp [handle_prompt]
  | resp r =>
    by_cases hr : r.status = 200
    · cases hb : pyGetD r.body "output" (Json.str "No answer available") with
      | some answer =>
        refine ⟨{ role := "assistant", content := answer,
                  json_output := some (Json.obj
                    [("query", Json.str prompt), ("response", answer),
                     ("company_domain", Json.str selected_domain),
                     ("timestamp", Json.str now),
                     ("full_response", r.body)]) }, ?_, rfl⟩
        simp [handle_prompt, hr, hb]
      | none =>
        refine ⟨{ role := "assistant",
                  content := Json.str
                    ("⚠️ Error getting answer: " ++ "AttributeError"),
                  json_output := none }, ?_, rfl⟩
        simp [handle_prompt, hr, hb]
    · refine ⟨{ role := "assistant",
                content := Json.str
                  ("⚠️ Error: " ++ toString r.status ++ " - " ++ r.text),
                json_output := none }, ?_, rfl⟩
      simp [handle_prompt, hr]
